import Mathlib

/-!
Shallow embedding of the message-normalization and topic-resolution layer of
the `grammers-client` crate (`src/types/message.rs`) together with the update
dispatch loop of `examples/forum-topic-filter.rs`.

Machine integers (`i32`, `i64`) are modelled as `Int`: the code only copies
and compares them, never performs arithmetic, so no overflow can occur.
Payload types that the code carries around but never inspects (media, forward
headers, formatting entities, reply markup, reactions, service actions, ...)
are modelled as opaque wrapper structures around `Nat`.
-/

namespace Grammers

/-- A `tl::enums::Peer`: the identifier of a user, group chat or channel. -/
inductive Peer where
  | user (user_id : Int)
  | chat (chat_id : Int)
  | channel (channel_id : Int)
deriving DecidableEq

/-- Opaque payload: `tl::enums::MessageFwdHeader`. The code copies it, never reads it. -/
structure MessageFwdHeader where
  data : Nat
deriving DecidableEq

/-- Opaque payload: `tl::enums::MessageMedia`. -/
structure MessageMedia where
  data : Nat
deriving DecidableEq

/-- Opaque payload: `tl::enums::ReplyMarkup`. -/
structure ReplyMarkup where
  data : Nat
deriving DecidableEq

/-- Opaque payload: `tl::enums::MessageEntity`. -/
structure MessageEntity where
  data : Nat
deriving DecidableEq

/-- Opaque payload: `tl::enums::MessageReplies`. -/
structure MessageReplies where
  data : Nat
deriving DecidableEq

/-- Opaque payload: `tl::enums::MessageReactions`. -/
structure MessageReactions where
  data : Nat
deriving DecidableEq

/-- Opaque payload: `tl::enums::RestrictionReason`. -/
structure RestrictionReason where
  data : Nat
deriving DecidableEq

/-- Opaque payload: `tl::enums::MessageAction`, the service-action of a service message. -/
structure MessageAction where
  data : Nat
deriving DecidableEq

/-- Opaque payload: `tl::enums::FactCheck`. -/
structure FactCheck where
  data : Nat
deriving DecidableEq

/-- The struct `tl::types::MessageReplyHeader`: the reply header of a message,
with the `forum_topic` flag and the two optional identifiers that topic
resolution reads, plus the quote/peer payload fields the code carries. -/
structure MessageReplyHeader where
  reply_to_scheduled : Bool
  forum_topic : Bool
  quote : Bool
  reply_to_msg_id : Option Int
  reply_to_peer_id : Option Peer
  reply_from : Option MessageFwdHeader
  reply_media : Option MessageMedia
  reply_to_top_id : Option Int
  quote_text : Option String
  quote_entities : Option (List MessageEntity)
  quote_offset : Option Int
deriving DecidableEq

/-- The enum `tl::enums::MessageReplyHeader`. The source matches two variants
carrying the reply-header struct (`Header` and `MessageReplyHeader`) and a
wildcard arm covering the story-reply variant. -/
inductive MessageReplyHeaderEnum where
  | header (h : MessageReplyHeader)
  | messageReplyHeader (h : MessageReplyHeader)
  | storyHeader (peer : Peer) (story_id : Int)
deriving DecidableEq

/-- The struct `tl::types::Message`: the raw full-message wire shape, the
structural superset all snapshots are stored as. -/
structure RawMessage where
  out : Bool
  mentioned : Bool
  media_unread : Bool
  silent : Bool
  post : Bool
  from_scheduled : Bool
  legacy : Bool
  edit_hide : Bool
  pinned : Bool
  noforwards : Bool
  invert_media : Bool
  offline : Bool
  video_processing_pending : Bool
  id : Int
  from_id : Option Peer
  from_boosts_applied : Option Int
  peer_id : Peer
  saved_peer_id : Option Peer
  fwd_from : Option MessageFwdHeader
  via_bot_id : Option Int
  via_business_bot_id : Option Int
  reply_to : Option MessageReplyHeaderEnum
  date : Int
  message : String
  media : Option MessageMedia
  reply_markup : Option ReplyMarkup
  entities : Option (List MessageEntity)
  views : Option Int
  forwards : Option Int
  replies : Option MessageReplies
  edit_date : Option Int
  post_author : Option String
  grouped_id : Option Int
  reactions : Option MessageReactions
  restriction_reason : Option (List RestrictionReason)
  ttl_period : Option Int
  quick_reply_shortcut_id : Option Int
  effect : Option Int
  factcheck : Option FactCheck
  report_delivery_until_date : Option Int
deriving DecidableEq

/-- The struct `tl::types::MessageService`: the trimmed service-message wire
shape; only the fields the normalization code reads. -/
structure MessageService where
  out : Bool
  mentioned : Bool
  media_unread : Bool
  silent : Bool
  post : Bool
  legacy : Bool
  id : Int
  from_id : Option Peer
  peer_id : Peer
  reply_to : Option MessageReplyHeaderEnum
  date : Int
  action : MessageAction
  ttl_period : Option Int
deriving DecidableEq

/-- The struct `tl::types::MessageEmpty`: an empty/deleted placeholder. -/
structure MessageEmpty where
  id : Int
  peer_id : Option Peer
deriving DecidableEq

/-- The enum `tl::enums::Message`: the three wire shapes a decoded message
record can take. -/
inductive MessageEnum where
  | empty (m : MessageEmpty)
  | message (m : RawMessage)
  | service (m : MessageService)
deriving DecidableEq

/-- Chat metadata held by the registry; the topic code never inspects it. -/
structure Chat where
  id : Int
  name : Option String
deriving DecidableEq

/-- `ChatMap`: the immutable chat registry attached to each snapshot. -/
structure ChatMap where
  entries : List Chat
deriving DecidableEq

/-- `ChatMap::single`: a registry holding exactly one chat. -/
def ChatMap.single (c : Chat) : ChatMap := ⟨[c]⟩

/-- `grammers_session::PackedChat`: a compact chat reference. -/
structure PackedChat where
  peer : Peer
  name : Option String
deriving DecidableEq

/-- `PackedChat::to_peer`. -/
def PackedChat.to_peer (c : PackedChat) : Peer := c.peer

/-- `Chat::unpack`: rebuild minimal chat metadata from a packed reference. -/
def Chat.unpack (c : PackedChat) : Chat :=
  { id := match c.peer with
      | .user i => i
      | .chat i => i
      | .channel i => i
    name := c.name }

/-- The client handle; an opaque shareable handle, cloning shares it. -/
structure Client where
  handle : Nat
deriving DecidableEq

/-- `InputMessage`: the locally known outbound request; only the fields
`from_raw_short_updates` reads. -/
structure InputMessage where
  text : String
  silent : Bool
  invert_media : Bool
  reply_to : Option Int
  reply_markup : Option ReplyMarkup
deriving DecidableEq

/-- The struct `tl::types::UpdateShortSentMessage`: the server's minimal
acknowledgment of a locally issued send. -/
structure UpdateShortSentMessage where
  out : Bool
  id : Int
  date : Int
  media : Option MessageMedia
  entities : Option (List MessageEntity)
  ttl_period : Option Int
deriving DecidableEq

/-- The normalized message snapshot (`grammers_client::types::Message`):
the raw superset struct, the optional service action, the client handle and
the shared chat registry. -/
structure Message where
  raw : RawMessage
  raw_action : Option MessageAction
  client : Client
  chats : ChatMap
deriving DecidableEq

/-- `Message::from_raw`: normalize one of the three wire shapes into zero or
one snapshot. Empty records yield `none`; service records are widened into
the full-message struct with absent fields defaulted and the action stored
separately. -/
def Message.from_raw (client : Client) (message : MessageEnum) (chats : ChatMap) :
    Option Message :=
  match message with
  | .empty _ => none
  | .message msg => some
      { raw := msg
        raw_action := none
        client := client
        chats := chats }
  | .service msg => some
      { raw :=
          { out := msg.out
            mentioned := msg.mentioned
            media_unread := msg.media_unread
            silent := msg.silent
            post := msg.post
            from_scheduled := false
            legacy := msg.legacy
            edit_hide := false
            pinned := false
            noforwards := false
            invert_media := false
            video_processing_pending := false
            id := msg.id
            from_id := msg.from_id
            from_boosts_applied := none
            peer_id := msg.peer_id
            saved_peer_id := none
            fwd_from := none
            via_bot_id := none
            reply_to := msg.reply_to
            date := msg.date
            message := ""
            media := none
            reply_markup := none
            entities := none
            views := none
            forwards := none
            replies := none
            edit_date := none
            post_author := none
            grouped_id := none
            restriction_reason := none
            ttl_period := msg.ttl_period
            reactions := none
            quick_reply_shortcut_id := none
            via_business_bot_id := none
            offline := false
            effect := none
            factcheck := none
            report_delivery_until_date := none }
        raw_action := some msg.action
        client := client
        chats := chats }

/-- `Message::from_raw_short_updates`: build a snapshot from a short-sent
acknowledgment plus the locally known outbound request. The reply header is
synthesized from the local reply target with `forum_topic` hard-coded false. -/
def Message.from_raw_short_updates (client : Client)
    (updates : UpdateShortSentMessage) (input : InputMessage)
    (chat : PackedChat) : Message :=
  { raw :=
      { out := updates.out
        mentioned := false
        media_unread := false
        silent := input.silent
        post := false
        from_scheduled := false
        legacy := false
        edit_hide := false
        pinned := false
        noforwards := false
        video_processing_pending := false
        invert_media := input.invert_media
        id := updates.id
        from_id := none
        from_boosts_applied := none
        peer_id := chat.to_peer
        saved_peer_id := none
        fwd_from := none
        via_bot_id := none
        reply_to := input.reply_to.map (fun reply_to_msg_id =>
          MessageReplyHeaderEnum.header
            { reply_to_scheduled := false
              forum_topic := false
              quote := false
              reply_to_msg_id := some reply_to_msg_id
              reply_to_peer_id := none
              reply_from := none
              reply_media := none
              reply_to_top_id := none
              quote_text := none
              quote_entities := none
              quote_offset := none })
        date := updates.date
        message := input.text
        media := updates.media
        reply_markup := input.reply_markup
        entities := updates.entities
        views := none
        forwards := none
        replies := none
        edit_date := none
        post_author := none
        grouped_id := none
        restriction_reason := none
        ttl_period := updates.ttl_period
        reactions := none
        quick_reply_shortcut_id := none
        via_business_bot_id := none
        offline := false
        effect := none
        factcheck := none
        report_delivery_until_date := none }
    raw_action := none
    client := client
    chats := ChatMap.single (Chat.unpack chat) }

/-- The inner match of `Message::topic_id` and `debug_topic_info`: the
normalized `(forum_topic, reply_to_top_id, reply_to_msg_id)` view over the
reply-header enum; the wildcard arm yields `(false, none, none)`. -/
def replyDescriptorView : MessageReplyHeaderEnum → Bool × Option Int × Option Int
  | .header h => (h.forum_topic, h.reply_to_top_id, h.reply_to_msg_id)
  | .messageReplyHeader h => (h.forum_topic, h.reply_to_top_id, h.reply_to_msg_id)
  | .storyHeader _ _ => (false, none, none)

/-- `Message::is_forum_topic`: the `forum_topic` flag of the reply header,
false when there is no reply header or it is a story header. -/
def Message.is_forum_topic (m : Message) : Bool :=
  match m.raw.reply_to with
  | some (.header h) => h.forum_topic
  | some (.messageReplyHeader h) => h.forum_topic
  | _ => false

/-- `Message::topic_id`: if the reply header is present and `forum_topic` is
set, return `reply_to_top_id` when available, else fall back to
`reply_to_msg_id`; otherwise `none`. -/
def Message.topic_id (m : Message) : Option Int :=
  match m.raw.reply_to with
  | some header =>
      let view := replyDescriptorView header
      if view.1 then
        match view.2.1 with
        | some top_id => some top_id
        | none => view.2.2
      else
        none
  | none => none

/-- `Message::is_in_topic`: whether the resolved topic id equals `topic_id`. -/
def Message.is_in_topic (m : Message) (topic_id : Int) : Bool :=
  match m.topic_id with
  | some id => id == topic_id
  | none => false

/-- `Message::is_in_topics`: whether the resolved topic id is among `topic_ids`. -/
def Message.is_in_topics (m : Message) (topic_ids : List Int) : Bool :=
  match m.topic_id with
  | some id => topic_ids.contains id
  | none => false

/-- `Message::reply_to_message_id`: the replied-to message id, if any. -/
def Message.reply_to_message_id (m : Message) : Option Int :=
  match m.raw.reply_to with
  | some (.header h) => h.reply_to_msg_id
  | some (.messageReplyHeader h) => h.reply_to_msg_id
  | _ => none

/-!
The update dispatch loop of `examples/forum-topic-filter.rs`. Each
iteration races the shutdown signal (Ctrl+C) against `next_update()`; the
sequence of race outcomes is the loop's input. A resolved update is either a
decoded `Update` or a transport error. On an update the loop spawns a
detached handler task and immediately continues; on shutdown it breaks and
saves the session once; on a transport error the `?` operator ends the loop
with the error, before the save line is reached.
-/

/-- The decoded `Update` enum; the loop hands it to the handler unread. -/
inductive Update where
  | newMessage (message : Message)
  | other
deriving DecidableEq

/-- A transport-level failure of `next_update()`. -/
structure TransportError where
  code : Nat
deriving DecidableEq

/-- An error raised by the user handler while processing one update. -/
structure HandlerError where
  code : Nat
deriving DecidableEq

/-- The outcome of one `select(exit, upd)` race: either the shutdown signal
resolved first, or `next_update()` resolved with a result. -/
inductive RaceOutcome where
  | ctrlC
  | nextUpdate (u : Except TransportError Update)

/-- One observable action of the control loop, in program order. -/
inductive LoopAction where
  | dispatch (u : Update)
  | saveSession
  | surfaceError (e : TransportError)
deriving DecidableEq

/-- The fate of one spawned handler task: the `match` around
`handle_update` either completes or catches the error and reports it to the
diagnostic sink (`eprintln`), discarding it. -/
inductive HandlerTaskOutcome where
  | completed
  | errorReported (e : HandlerError)
deriving DecidableEq

/-- Whether a loop action is the session-persistence step. -/
def isSaveSession : LoopAction → Bool
  | .saveSession => true
  | _ => false

/-- Whether a loop action is a handler dispatch. -/
def isDispatch : LoopAction → Bool
  | .dispatch _ => true
  | _ => false

/-- The dispatch loop of `async_main`, run over a sequence of race outcomes
with a user handler: returns the control loop's ordered action trace and the
list of spawned handler-task outcomes. Each update is dispatched and its
detached task's outcome recorded; the loop continues without waiting on it.
Shutdown breaks the loop and the session is saved once; a transport error
ends the loop via `?` without reaching the save. -/
def runDispatch (handler : Update → Except HandlerError Unit) :
    List RaceOutcome → List LoopAction × List HandlerTaskOutcome
  | [] => ([], [])
  | .ctrlC :: _ => ([.saveSession], [])
  | .nextUpdate (.error e) :: _ => ([.surfaceError e], [])
  | .nextUpdate (.ok u) :: rest =>
      let task : HandlerTaskOutcome :=
        match handler u with
        | .ok _ => .completed
        | .error e => .errorReported e
      let r := runDispatch handler rest
      (.dispatch u :: r.1, task :: r.2)

/-!
Concrete fixtures used by the witness theorems. `EMPTY_MESSAGE` is the
all-default raw message constant of the source file; the other fixtures vary
only the fields relevant to the property being witnessed.
-/

/-- The `EMPTY_MESSAGE` constant of the source: a raw message with every
field defaulted. -/
def EMPTY_MESSAGE : RawMessage :=
  { out := false
    mentioned := false
    media_unread := false
    silent := false
    post := false
    from_scheduled := false
    legacy := false
    edit_hide := false
    pinned := false
    noforwards := false
    invert_media := false
    offline := false
    video_processing_pending := false
    id := 0
    from_id := none
    from_boosts_applied := none
    peer_id := .user 0
    saved_peer_id := none
    fwd_from := none
    via_bot_id := none
    via_business_bot_id := none
    reply_to := none
    date := 0
    message := ""
    media := none
    reply_markup := none
    entities := none
    views := none
    forwards := none
    replies := none
    edit_date := none
    post_author := none
    grouped_id := none
    reactions := none
    restriction_reason := none
    ttl_period := none
    quick_reply_shortcut_id := none
    effect := none
    factcheck := none
    report_delivery_until_date := none }

/-- A reply header with the given topic-relevant fields, the rest defaulted. -/
def mkHeader (forum_topic : Bool) (top msg_id : Option Int) : MessageReplyHeader :=
  { reply_to_scheduled := false
    forum_topic := forum_topic
    quote := false
    reply_to_msg_id := msg_id
    reply_to_peer_id := none
    reply_from := none
    reply_media := none
    reply_to_top_id := top
    quote_text := none
    quote_entities := none
    quote_offset := none }

/-- A snapshot whose raw message is `EMPTY_MESSAGE` with the given reply header. -/
def mkMsg (reply : Option MessageReplyHeaderEnum) : Message :=
  { raw := { EMPTY_MESSAGE with reply_to := reply }
    raw_action := none
    client := ⟨0⟩
    chats := ⟨[]⟩ }

/-- Fixture: forum-topic flag set, both identifiers present (42 and 7). -/
def msgBoth : Message := mkMsg (some (.header (mkHeader true (some 42) (some 7))))

/-- Fixture: forum-topic flag set, only `reply_to_msg_id` (7) present. -/
def msgNoTop : Message := mkMsg (some (.header (mkHeader true none (some 7))))

/-- Fixture: forum-topic flag clear although both identifiers are present. -/
def msgFlagOff : Message := mkMsg (some (.header (mkHeader false (some 42) (some 7))))

/-- Fixture: forum-topic flag set but both identifiers absent. -/
def msgFlagOnly : Message := mkMsg (some (.header (mkHeader true none none)))

/-- Fixture: no reply header at all. -/
def msgNoHeader : Message := mkMsg none

/-- Fixture: a snapshot with one chat registry attached. -/
def msgRegistryA : Message :=
  { raw := { EMPTY_MESSAGE with reply_to := some (.header (mkHeader true (some 42) (some 7))) }
    raw_action := none
    client := ⟨1⟩
    chats := ⟨[⟨1, some "alpha"⟩]⟩ }

/-- Fixture: same reply header as `msgRegistryA`, but a different id, text,
peer, action, client handle and chat registry. -/
def msgRegistryB : Message :=
  { raw := { EMPTY_MESSAGE with
      reply_to := some (.header (mkHeader true (some 42) (some 7)))
      id := 99
      out := true
      message := "different"
      peer_id := .channel 5 }
    raw_action := some ⟨1⟩
    client := ⟨2⟩
    chats := ⟨[⟨2, none⟩, ⟨3, some "beta"⟩]⟩ }

/-- Fixture: a locally known outbound request with a reply target of 7. -/
def inputWithReply : InputMessage :=
  { text := "hello"
    silent := false
    invert_media := false
    reply_to := some 7
    reply_markup := none }

/-- Fixture: a short-sent acknowledgment. -/
def shortAck : UpdateShortSentMessage :=
  { out := true
    id := 100
    date := 1700000000
    media := none
    entities := none
    ttl_period := none }

/-- Fixture: a packed chat reference to a channel. -/
def packedChannel : PackedChat := ⟨.channel 5, some "forum"⟩

/-- Fixture: a handler that fails on every update. -/
def failingHandler : Update → Except HandlerError Unit := fun _ => .error ⟨3⟩

/-- Fixture: a handler that succeeds on every update. -/
def okHandler : Update → Except HandlerError Unit := fun _ => .ok ()

/-- Helper: running the loop over a block of successfully fetched updates
followed by further outcomes dispatches each update in order, records one
task outcome per update, and then continues with the remaining outcomes. -/
theorem runDispatch_map_ok_append (handler : Update → Except HandlerError Unit)
    (updates : List Update) (rest : List RaceOutcome) :
    runDispatch handler (updates.map (fun u => RaceOutcome.nextUpdate (.ok u)) ++ rest)
      = (updates.map LoopAction.dispatch ++ (runDispatch handler rest).1,
         updates.map (fun u =>
            match handler u with
            | .ok _ => HandlerTaskOutcome.completed
            | .error e => .errorReported e) ++ (runDispatch handler rest).2) := by
  induction updates with
  | nil => simp [runDispatch]
  | cons u us ih => simp [runDispatch, ih]

/-- C1: `topic_id` follows the ordered fallback. With no reply header it is
`none`; with a header whose normalized `forum_topic` flag is false it is
`none`; with the flag true it is `reply_to_top_id` when present, else
`reply_to_msg_id` when present, else `none`. -/
theorem topic_id_ordered_fallback (m : Message) :
    (m.raw.reply_to = none → m.topic_id = none) ∧
    (∀ h, m.raw.reply_to = some h →
      ((replyDescriptorView h).1 = false → m.topic_id = none) ∧
      (∀ t, (replyDescriptorView h).1 = true →
        (replyDescriptorView h).2.1 = some t → m.topic_id = some t) ∧
      (∀ t, (replyDescriptorView h).1 = true → (replyDescriptorView h).2.1 = none →
        (replyDescriptorView h).2.2 = some t → m.topic_id = some t) ∧
      ((replyDescriptorView h).1 = true → (replyDescriptorView h).2.1 = none →
        (replyDescriptorView h).2.2 = none → m.topic_id = none)) := by
  constructor
  · intro hn
    simp [Message.topic_id, hn]
  · intro h hh
    refine ⟨?_, ?_, ?_, ?_⟩
    · intro hf
      simp [Message.topic_id, hh, hf]
    · intro t h1 h2
      simp [Message.topic_id, hh, h1, h2]
    · intro t h1 h2 h3
      simp [Message.topic_id, hh, h1, h2, h3]
    · intro h1 h2 h3
      simp [Message.topic_id, hh, h1, h2, h3]

/-- Witness for C1 at concrete headers: both ids present gives the top id;
top id absent falls back to the message id; flag false gives `none` despite
both ids; flag true with no ids gives `none`; no header gives `none`. -/
theorem topic_id_ordered_fallback_witness :
    msgBoth.topic_id = some 42 ∧ msgNoTop.topic_id = some 7 ∧
    msgFlagOff.topic_id = none ∧ msgFlagOnly.topic_id = none ∧
    msgNoHeader.topic_id = none :=
  ⟨((topic_id_ordered_fallback msgBoth).2 _ rfl).2.1 42 rfl rfl,
   ((topic_id_ordered_fallback msgNoTop).2 _ rfl).2.2.1 7 rfl rfl rfl,
   ((topic_id_ordered_fallback msgFlagOff).2 _ rfl).1 rfl,
   ((topic_id_ordered_fallback msgFlagOnly).2 _ rfl).2.2.2 rfl rfl rfl,
   (topic_id_ordered_fallback msgNoHeader).1 rfl⟩

/-- C2: normalization maps the empty wire shape to no snapshot and each
non-empty wire shape (full or service) to exactly one snapshot. -/
theorem from_raw_empty_none_nonempty_some (client : Client) (chats : ChatMap) :
    (∀ e : MessageEmpty, Message.from_raw client (.empty e) chats = none) ∧
    (∀ msg : RawMessage, ∃ m, Message.from_raw client (.message msg) chats = some m) ∧
    (∀ msg : MessageService, ∃ m, Message.from_raw client (.service msg) chats = some m) :=
  ⟨fun _ => rfl, fun _ => ⟨_, rfl⟩, fun _ => ⟨_, rfl⟩⟩

/-- C3: normalizing a service-shaped record yields a snapshot with empty
text, the action populated, every field the service shape does not carry
defaulted (`none`/`false`), and the fields it does carry copied verbatim. -/
theorem from_raw_service_shape (client : Client) (chats : ChatMap)
    (msg : MessageService) :
    ∃ m, Message.from_raw client (.service msg) chats = some m ∧
      m.raw.message = "" ∧ m.raw_action = some msg.action ∧
      m.raw.media = none ∧ m.raw.views = none ∧ m.raw.forwards = none ∧
      m.raw.replies = none ∧ m.raw.reactions = none ∧ m.raw.entities = none ∧
      m.raw.reply_markup = none ∧ m.raw.edit_date = none ∧
      m.raw.grouped_id = none ∧ m.raw.from_scheduled = false ∧
      m.raw.edit_hide = false ∧ m.raw.pinned = false ∧
      m.raw.id = msg.id ∧ m.raw.date = msg.date ∧ m.raw.peer_id = msg.peer_id ∧
      m.raw.from_id = msg.from_id ∧ m.raw.reply_to = msg.reply_to ∧
      m.raw.out = msg.out ∧ m.raw.mentioned = msg.mentioned ∧
      m.raw.silent = msg.silent ∧ m.raw.post = msg.post ∧
      m.raw.media_unread = msg.media_unread ∧
      m.raw.ttl_period = msg.ttl_period :=
  ⟨_, rfl, rfl, rfl, rfl, rfl, rfl, rfl, rfl, rfl, rfl, rfl, rfl, rfl, rfl,
   rfl, rfl, rfl, rfl, rfl, rfl, rfl, rfl, rfl, rfl, rfl, rfl⟩

/-- C4: a short-sent snapshot has a reply header only when the local input
carried a reply target; any synthesized header has `forum_topic` false and
`reply_to_top_id` absent with `reply_to_msg_id` the local target, and
`topic_id` on such a snapshot is always `none`. -/
theorem from_raw_short_updates_no_topic (client : Client)
    (updates : UpdateShortSentMessage) (input : InputMessage)
    (chat : PackedChat) :
    (Message.from_raw_short_updates client updates input chat).topic_id = none ∧
    (input.reply_to = none →
      (Message.from_raw_short_updates client updates input chat).raw.reply_to = none) ∧
    (∀ r, input.reply_to = some r →
      ∃ hdr, (Message.from_raw_short_updates client updates input chat).raw.reply_to
            = some (.header hdr) ∧
        hdr.forum_topic = false ∧ hdr.reply_to_top_id = none ∧
        hdr.reply_to_msg_id = some r) := by
  refine ⟨?_, ?_, ?_⟩
  · rcases hr : input.reply_to with _ | r <;>
      simp [Message.from_raw_short_updates, Message.topic_id, replyDescriptorView, hr]
  · intro hr
    simp [Message.from_raw_short_updates, hr]
  · intro r hr
    refine ⟨{ reply_to_scheduled := false, forum_topic := false, quote := false,
              reply_to_msg_id := some r, reply_to_peer_id := none,
              reply_from := none, reply_media := none, reply_to_top_id := none,
              quote_text := none, quote_entities := none, quote_offset := none },
            ?_, rfl, rfl, rfl⟩
    simp [Message.from_raw_short_updates, hr]

/-- Witness for C4 at a concrete input carrying reply target 7. -/
theorem from_raw_short_updates_no_topic_witness :
    (Message.from_raw_short_updates ⟨0⟩ shortAck inputWithReply packedChannel).topic_id
        = none ∧
    (∃ hdr, (Message.from_raw_short_updates ⟨0⟩ shortAck inputWithReply
          packedChannel).raw.reply_to = some (.header hdr) ∧
      hdr.forum_topic = false ∧ hdr.reply_to_top_id = none ∧
      hdr.reply_to_msg_id = some 7) :=
  ⟨(from_raw_short_updates_no_topic ⟨0⟩ shortAck inputWithReply packedChannel).1,
   (from_raw_short_updates_no_topic ⟨0⟩ shortAck inputWithReply packedChannel).2.2 7 rfl⟩

/-- C5: the derived queries are exactly the stated functions of `topic_id`:
`is_in_topic` is the equality test, `is_in_topics` is membership in the
caller-supplied list (`map_or false contains`), the empty list always gives
false, and both are false when `topic_id` is `none`. -/
theorem is_in_topic_is_in_topics_derived (m : Message) (t : Int) (ids : List Int) :
    (m.is_in_topic t = true ↔ m.topic_id = some t) ∧
    (m.is_in_topics ids = m.topic_id.elim false (fun x => ids.contains x)) ∧
    (m.is_in_topics [] = false) ∧
    (m.topic_id = none → m.is_in_topic t = false ∧ m.is_in_topics ids = false) := by
  rcases h : m.topic_id with _ | v <;>
    simp [Message.is_in_topic, Message.is_in_topics, h]

/-- Witness for C5: concrete equality, membership, empty-list and no-topic
cases. -/
theorem is_in_topic_is_in_topics_derived_witness :
    msgBoth.is_in_topic 42 = true ∧
    (msgBoth.is_in_topics [41, 42] = (msgBoth.topic_id.elim false
        (fun x => List.contains [41, 42] x))) ∧
    msgBoth.is_in_topics [] = false ∧
    (msgNoHeader.is_in_topic 5 = false ∧ msgNoHeader.is_in_topics [5, 6] = false) :=
  ⟨(is_in_topic_is_in_topics_derived msgBoth 42 [41, 42]).1.mpr rfl,
   (is_in_topic_is_in_topics_derived msgBoth 42 [41, 42]).2.1,
   (is_in_topic_is_in_topics_derived msgBoth 42 [41, 42]).2.2.1,
   (is_in_topic_is_in_topics_derived msgNoHeader 5 [5, 6]).2.2.2 rfl⟩

/-- C6: when N updates are delivered and then the shutdown signal resolves,
the loop's trace is exactly N dispatches, in arrival order, followed by one
session save: N handler dispatches and N spawned tasks occur whatever the
handler does, and the single save comes after the shutdown is observed,
never interleaved with update handling; N = 0 gives zero dispatches and one
save. -/
theorem dispatch_loop_updates_then_shutdown
    (handler : Update → Except HandlerError Unit) (updates : List Update) :
    (runDispatch handler (updates.map (fun u => RaceOutcome.nextUpdate (.ok u))
        ++ [RaceOutcome.ctrlC])).1
      = updates.map LoopAction.dispatch ++ [LoopAction.saveSession] ∧
    (runDispatch handler (updates.map (fun u => RaceOutcome.nextUpdate (.ok u))
        ++ [RaceOutcome.ctrlC])).1.countP (fun a => isDispatch a)
      = updates.length ∧
    (runDispatch handler (updates.map (fun u => RaceOutcome.nextUpdate (.ok u))
        ++ [RaceOutcome.ctrlC])).1.countP (fun a => isSaveSession a) = 1 ∧
    (runDispatch handler (updates.map (fun u => RaceOutcome.nextUpdate (.ok u))
        ++ [RaceOutcome.ctrlC])).2.length = updates.length := by
  have h := runDispatch_map_ok_append handler updates [RaceOutcome.ctrlC]
  refine ⟨?_, ?_, ?_, ?_⟩ <;>
    simp [h, runDispatch, List.countP_append, List.countP_map, Function.comp,
      isDispatch, isSaveSession, List.countP_eq_length]

/-- C7: a handler error is caught at the spawn boundary of its own task and
recorded as reported, and the loop trace is the same for any two handlers:
a failing handler never alters which updates get dispatched afterwards,
never terminates the loop and never hides the shutdown observation. -/
theorem handler_errors_isolated
    (h1 h2 : Update → Except HandlerError Unit) (rs : List RaceOutcome)
    (u : Update) (e : HandlerError) :
    (runDispatch h1 rs).1 = (runDispatch h2 rs).1 ∧
    (h1 u = .error e →
      (runDispatch h1 (RaceOutcome.nextUpdate (.ok u) :: rs)).2.head?
          = some (.errorReported e) ∧
      (runDispatch h1 (RaceOutcome.nextUpdate (.ok u) :: rs)).1
          = LoopAction.dispatch u :: (runDispatch h1 rs).1) := by
  constructor
  · induction rs with
    | nil => rfl
    | cons r rest ih =>
      cases r with
      | ctrlC => rfl
      | nextUpdate res =>
        cases res with
        | error e0 => rfl
        | ok u0 => simp [runDispatch, ih]
  · intro hf
    exact ⟨by simp [runDispatch, hf], by simp [runDispatch]⟩

/-- Witness for C7: a handler that always fails, raced against one update
then shutdown, yields the same loop trace as an always-succeeding handler,
its task outcome is the reported error, and the dispatch still happened. -/
theorem handler_errors_isolated_witness :
    (runDispatch failingHandler [RaceOutcome.ctrlC]).1
        = (runDispatch okHandler [RaceOutcome.ctrlC]).1 ∧
    ((runDispatch failingHandler
          (RaceOutcome.nextUpdate (.ok .other) :: [RaceOutcome.ctrlC])).2.head?
        = some (.errorReported ⟨3⟩) ∧
      (runDispatch failingHandler
          (RaceOutcome.nextUpdate (.ok .other) :: [RaceOutcome.ctrlC])).1
        = LoopAction.dispatch .other
            :: (runDispatch failingHandler [RaceOutcome.ctrlC]).1) :=
  ⟨(handler_errors_isolated failingHandler okHandler [RaceOutcome.ctrlC]
      .other ⟨3⟩).1,
   (handler_errors_isolated failingHandler okHandler [RaceOutcome.ctrlC]
      .other ⟨3⟩).2 rfl⟩

/-- C8: if fetching the next update fails with a transport error, the loop
trace is the dispatches so far followed by surfacing the error to the
caller, and contains no session save: persistence happens only on the
shutdown path. -/
theorem transport_error_ends_loop_without_save
    (handler : Update → Except HandlerError Unit) (updates : List Update)
    (e : TransportError) (rest : List RaceOutcome) :
    (runDispatch handler (updates.map (fun u => RaceOutcome.nextUpdate (.ok u))
        ++ RaceOutcome.nextUpdate (.error e) :: rest)).1
      = updates.map LoopAction.dispatch ++ [LoopAction.surfaceError e] ∧
    (runDispatch handler (updates.map (fun u => RaceOutcome.nextUpdate (.ok u))
        ++ RaceOutcome.nextUpdate (.error e) :: rest)).1.countP
          (fun a => isSaveSession a) = 0 := by
  have h := runDispatch_map_ok_append handler updates
    (RaceOutcome.nextUpdate (.error e) :: rest)
  refine ⟨?_, ?_⟩ <;>
    simp [h, runDispatch, List.countP_append, List.countP_map, Function.comp,
      isSaveSession]

/-- C9: topic resolution reads only the reply header: two snapshots with
equal raw reply headers agree on `topic_id`, `is_forum_topic`,
`is_in_topic` and `is_in_topics`, whatever their chat registries, clients
or other fields; no chat lookup is involved. -/
theorem topic_queries_read_only_reply_header (m1 m2 : Message)
    (h : m1.raw.reply_to = m2.raw.reply_to) :
    m1.topic_id = m2.topic_id ∧
    m1.is_forum_topic = m2.is_forum_topic ∧
    (∀ t, m1.is_in_topic t = m2.is_in_topic t) ∧
    (∀ ids, m1.is_in_topics ids = m2.is_in_topics ids) := by
  have ht : m1.topic_id = m2.topic_id := by
    simp [Message.topic_id, h]
  refine ⟨ht, ?_, ?_, ?_⟩
  · simp [Message.is_forum_topic, h]
  · intro t
    simp [Message.is_in_topic, ht]
  · intro ids
    simp [Message.is_in_topics, ht]

/-- Witness for C9: two snapshots with the same reply header but different
ids, flags, text, peer, action, client handles and chat registries agree on
all four topic queries. -/
theorem topic_queries_read_only_reply_header_witness :
    msgRegistryA.topic_id = msgRegistryB.topic_id ∧
    msgRegistryA.is_forum_topic = msgRegistryB.is_forum_topic ∧
    (∀ t, msgRegistryA.is_in_topic t = msgRegistryB.is_in_topic t) ∧
    (∀ ids, msgRegistryA.is_in_topics ids = msgRegistryB.is_in_topics ids) :=
  topic_queries_read_only_reply_header msgRegistryA msgRegistryB rfl

/-- C10: a snapshot never reports a topic identifier without reporting it is
a forum-topic message: `topic_id = some v` forces `is_forum_topic = true`,
and when `is_forum_topic` is false, `topic_id` is `none` and `is_in_topic`
is false for every candidate. -/
theorem topic_id_some_implies_forum_topic (m : Message) :
    (∀ v, m.topic_id = some v → m.is_forum_topic = true) ∧
    (m.is_forum_topic = false →
      m.topic_id = none ∧ ∀ t, m.is_in_topic t = false) := by
  have key : m.is_forum_topic = false → m.topic_id = none := by
    intro hf
    rcases hr : m.raw.reply_to with _ | hd
    · simp [Message.topic_id, hr]
    · cases hd with
      | header h =>
        simp [Message.is_forum_topic, hr] at hf
        simp [Message.topic_id, hr, replyDescriptorView, hf]
      | messageReplyHeader h =>
        simp [Message.is_forum_topic, hr] at hf
        simp [Message.topic_id, hr, replyDescriptorView, hf]
      | storyHeader p s =>
        simp [Message.topic_id, hr, replyDescriptorView]
  constructor
  · intro v hv
    cases hb : m.is_forum_topic with
    | true => rfl
    | false =>
      rw [key hb] at hv
      cases hv
  · intro hf
    refine ⟨key hf, fun t => ?_⟩
    simp [Message.is_in_topic, key hf]

/-- Witness for C10: the flag is true on a snapshot resolving to topic 42,
and a snapshot without a reply header has no topic and fails every
`is_in_topic` test. -/
theorem topic_id_some_implies_forum_topic_witness :
    msgBoth.is_forum_topic = true ∧
    msgNoHeader.topic_id = none ∧ msgNoHeader.is_in_topic 42 = false :=
  ⟨(topic_id_some_implies_forum_topic msgBoth).1 42 rfl,
   ((topic_id_some_implies_forum_topic msgNoHeader).2 rfl).1,
   ((topic_id_some_implies_forum_topic msgNoHeader).2 rfl).2 42⟩

end Grammers
